import Mathlib

/-!
# Verification of the pr-previews preview-environment orchestration engine

A shallow embedding, in Lean 4, of the core of the `pr-previews` repository:
the command grammar (`ParseCommand`), the permission gate
(`hasDeploymentPermission` and the webhook dispatch), the provisioning,
status and teardown workflows (`HandlePreviewK8s`, `HandlePreviewK8sEnhanced`,
`HandleStatusK8s`, `HandleCleanupK8s`), and the multi-document manifest
ingestion (`ParseManifestFile` / `parseDocument`).

Cluster access (package `services`, type `K8sService`) is modelled as a
record of oracles (`K8sGateway`), one per cluster primitive the orchestrator
invokes; each orchestrator function additionally returns the list of cluster
calls it made, in order, so "zero cluster calls" and "no later step runs
after a failure" are provable statements.  YAML decoding and the filesystem
are likewise modelled as oracles (`YamlOracle`, `RepoFS`), since the Go code
delegates them to external libraries.
-/

/-! ## Character classes and Go string helpers -/

/-- Go `unicode.IsSpace` restricted to ASCII, as used by `strings.TrimSpace`
on the command texts the grammar sees. -/
def isGoSpace (c : Char) : Bool :=
  c = ' ' || c = '\t' || c = '\n' || c = '\x0b' || c = '\x0c' || c = '\r'

/-- The RE2 character class `\s` (exactly `[\t\n\f\r ]`), used by the command
patterns in `ParseCommand`. -/
def isReSpace (c : Char) : Bool :=
  c = ' ' || c = '\t' || c = '\n' || c = '\x0c' || c = '\r'

/-- The RE2 character class of the command patterns' target token: ASCII
letters, digits, slash and dash. -/
def isTargetChar (c : Char) : Bool :=
  (('a' ≤ c && c ≤ 'z') || ('A' ≤ c && c ≤ 'Z') || ('0' ≤ c && c ≤ '9')
    || c = '/' || c = '-')

/-- Go `strings.TrimSpace` (ASCII inputs): drop whitespace from both ends. -/
def trimGo (s : String) : String :=
  ⟨((s.data.dropWhile isGoSpace).reverse.dropWhile isGoSpace).reverse⟩

/-! ## Command grammar (`ParseCommand`, services/command.go) -/

/-- `types.Command`. -/
structure Command where
  type : String
  service : String
  user : String
  prNumber : Int
deriving DecidableEq, Repr

/-- Consume a literal keyword at the head of the input; `some rest` when the
input starts with the keyword. -/
def dropKw (kw : List Char) (cs : List Char) : Option (List Char) :=
  if cs.take kw.length = kw then some (cs.drop kw.length) else none

/-- The anchored pattern `^<kw>\s*$` (patterns of `/help`, `/status`,
`/cleanup`). -/
def matchKw (kw : String) (cs : List Char) : Bool :=
  match dropKw kw.data cs with
  | some rest => rest.all isReSpace
  | none => false

/-- The tail of the `/plan` and `/preview` patterns: an optional group of
one-or-more whitespace then a captured one-or-more run of target characters,
then trailing whitespace, anchored at the end.  `some none` when no target
is supplied, `some (some tok)` when one is.  The target class and the
whitespace class are disjoint, so RE2's greedy matching is maximal munch. -/
def matchOptTarget (cs : List Char) : Option (Option String) :=
  if cs.all isReSpace then some none
  else
    let ws := cs.takeWhile isReSpace
    let r1 := cs.dropWhile isReSpace
    if ws.isEmpty then none
    else
      let tok := r1.takeWhile isTargetChar
      let r2 := r1.dropWhile isTargetChar
      if tok.isEmpty then none
      else if r2.all isReSpace then some (some ⟨tok⟩) else none

/-- The anchored keyword-plus-optional-target pattern of `/plan` and
`/preview`. -/
def matchKwTarget (kw : String) (cs : List Char) : Option (Option String) :=
  match dropKw kw.data cs with
  | some rest => matchOptTarget rest
  | none => none

/-- Build the `types.Command` of a successful match: `cmd.Service` is set
only when the capture group is non-empty. -/
def mkCommand (t : String) (svc : Option String) (user : String) (pr : Int) :
    Command :=
  { type := t, service := svc.getD "", user := user, prNumber := pr }

/-- `CommandService.ParseCommand`: trims the comment and matches it against
the five anchored patterns.  Go iterates the pattern map in unspecified
order; the patterns are mutually exclusive by leading keyword (no two can
match one input), so a fixed order is an equivalent embedding. -/
def ParseCommand (body user : String) (pr : Int) : Except String Command :=
  let comment := trimGo body
  let cs := comment.data
  if matchKw "/help" cs then .ok (mkCommand "help" none user pr)
  else if matchKw "/status" cs then .ok (mkCommand "status" none user pr)
  else
    match matchKwTarget "/plan" cs with
    | some svc => .ok (mkCommand "plan" svc user pr)
    | none =>
      match matchKwTarget "/preview" cs with
      | some svc => .ok (mkCommand "preview" svc user pr)
      | none =>
        if matchKw "/cleanup" cs then .ok (mkCommand "cleanup" none user pr)
        else .error ("unknown command: " ++ comment)

/-! ## Result values (`types.CommandResponse`)

Go's `map[string]interface{}` payloads are modelled by association lists of
`GoValue`, a generic value type covering everything the handlers store. -/

/-- A dynamic value, standing for Go's `interface{}` as used in the
handlers' `Data` maps. -/
inductive GoValue where
  | str : String → GoValue
  | int : Int → GoValue
  | bool : Bool → GoValue
  | list : List GoValue → GoValue
  | dict : List (String × GoValue) → GoValue

/-- `types.CommandResponse`.  A `nil` Go `Data` map is the empty list. -/
structure CommandResponse where
  success : Bool
  message : String
  content : String
  data : List (String × GoValue)

/-! ## Manifest ingestion (`ManifestParser`, services/manifest_service.go)

The typed Kubernetes resources are modelled with the fields this program
reads (only the object name); YAML decoding itself is an oracle. -/

/-- `appsv1.Deployment`, restricted to the fields the orchestrator reads. -/
structure K8sDeployment where
  name : String
deriving DecidableEq, Repr

/-- `corev1.Service`, restricted to the fields the orchestrator reads. -/
structure K8sResService where
  name : String
deriving DecidableEq, Repr

/-- `corev1.ConfigMap`, restricted to the fields the orchestrator reads. -/
structure K8sConfigMap where
  name : String
deriving DecidableEq, Repr

/-- `ParsedManifest`: the kind-partitioned output of ingestion. -/
structure ParsedManifest where
  deployments : List K8sDeployment
  services : List K8sResService
  configMaps : List K8sConfigMap
deriving DecidableEq, Repr

/-- The YAML layer as an oracle over raw document text.
`generic d = none` models a failed generic `yaml.Unmarshal`;
`generic d = some none` a document without a readable string `kind`;
`generic d = some (some k)` a document of declared kind `k`.  The three
typed decoders model `decoder.Decode` into each supported kind (`none` is a
decode failure). -/
structure YamlOracle where
  generic : String → Option (Option String)
  decodeDeployment : String → Option K8sDeployment
  decodeService : String → Option K8sResService
  decodeConfigMap : String → Option K8sConfigMap

/-- `ManifestParser.parseDocument`: read the generic `kind`, then decode by
kind and append; an unsupported kind is skipped without error. -/
def parseDocument (o : YamlOracle) (content : String) (parsed : ParsedManifest) :
    Except String ParsedManifest :=
  match o.generic content with
  | none => .error "failed to parse YAML"
  | some none => .error "no kind specified"
  | some (some kind) =>
    if kind = "Deployment" then
      match o.decodeDeployment content with
      | none => .error "failed to decode deployment"
      | some d => .ok { parsed with deployments := parsed.deployments ++ [d] }
    else if kind = "Service" then
      match o.decodeService content with
      | none => .error "failed to decode service"
      | some s => .ok { parsed with services := parsed.services ++ [s] }
    else if kind = "ConfigMap" then
      match o.decodeConfigMap content with
      | none => .error "failed to decode configmap"
      | some c => .ok { parsed with configMaps := parsed.configMaps ++ [c] }
    else
      -- Skip unsupported resource types (not an error)
      .ok parsed

/-- The empty `ParsedManifest` the parse starts from. -/
def emptyParsed : ParsedManifest := ⟨[], [], []⟩

/-- Go `strings.Split(content, "---")`: split around each leftmost,
non-overlapping occurrence of the three-dash delimiter.  Written as
structural recursion (one character at a time, with an accumulator) so the
kernel can evaluate it. -/
def splitDocsAux : List Char → List Char → List (List Char)
  | acc, '-' :: '-' :: '-' :: rest => acc.reverse :: splitDocsAux [] rest
  | acc, c :: rest => splitDocsAux (c :: acc) rest
  | acc, [] => [acc.reverse]

/-- `strings.Split(content, "---")` on strings. -/
def splitOnDashes (content : String) : List String :=
  (splitDocsAux [] content.data).map (fun cs => ⟨cs⟩)

/-- The document loop of `ParseManifestFile`: split on the horizontal-rule
delimiter, trim each piece, skip empty pieces, and parse each surviving
document, continuing (with the accumulator unchanged) when one fails. -/
def parseStep (o : YamlOracle) (parsed : ParsedManifest) (docRaw : String) :
    ParsedManifest :=
  let doc := trimGo docRaw
  if doc = "" then parsed
  else
    match parseDocument o doc parsed with
    | .ok parsed' => parsed'
    | .error _ => parsed

def parseDocs (o : YamlOracle) (content : String) : ParsedManifest :=
  (splitOnDashes content).foldl (parseStep o) emptyParsed

/-- `ManifestParser.ParseManifestFile`: the only failure of the whole call
is the file read; every per-document failure is recovered in `parseDocs`. -/
def ParseManifestFile (read : String → Except String String) (o : YamlOracle)
    (filePath : String) : Except String ParsedManifest :=
  match read filePath with
  | .error e => .error ("failed to read manifest file: " ++ e)
  | .ok content => .ok (parseDocs o content)

/-- The non-empty trimmed documents of a manifest file, for stating counting
properties about `parseDocs`. -/
def docsOf (content : String) : List String :=
  ((splitOnDashes content).map trimGo).filter (fun d => d ≠ "")

/-- Total entry count of a `ParsedManifest` across the three collections. -/
def totalCount (p : ParsedManifest) : Nat :=
  p.deployments.length + p.services.length + p.configMaps.length

/-- A document whose declared kind is missing or unrecognized (it is skipped
and contributes no entry). -/
def badKind (o : YamlOracle) (d : String) : Bool :=
  match o.generic d with
  | none => false
  | some none => true
  | some (some k) => !(k = "Deployment" || k = "Service" || k = "ConfigMap")

/-- A document whose kind, when recognized, decodes successfully. -/
def decodeOk (o : YamlOracle) (d : String) : Bool :=
  match o.generic d with
  | some (some k) =>
    if k = "Deployment" then (o.decodeDeployment d).isSome
    else if k = "Service" then (o.decodeService d).isSome
    else if k = "ConfigMap" then (o.decodeConfigMap d).isSome
    else true
  | _ => true

/-- A document that contributes exactly one entry to the parse. -/
def goodDoc (o : YamlOracle) (d : String) : Bool :=
  match o.generic d with
  | none => false
  | some none => false
  | some (some k) =>
    if k = "Deployment" then (o.decodeDeployment d).isSome
    else if k = "Service" then (o.decodeService d).isSome
    else if k = "ConfigMap" then (o.decodeConfigMap d).isSome
    else false

/-! ## The cluster gateway (`K8sService`, services/k8s_service.go)

Each orchestrator method is embedded as a function of a `K8sGateway` — a
record of oracles giving each cluster primitive's outcome — and returns,
besides the `CommandResponse`, the ordered list of cluster calls it made. -/

/-- One entry of the list `GetPreviewNamespacesByPR` returns (the `info`
map built per namespace: keys `name`, `service`, `created_at`, `status`). -/
structure NsInfo where
  name : String
  service : String
  createdAt : String
  status : String
deriving DecidableEq, Repr

/-- One entry of the `pods` list of `GetDeploymentStatus`. -/
structure PodStatus where
  name : String
  status : String
  ready : Bool
deriving DecidableEq, Repr

/-- The map `GetDeploymentStatus` returns (deployment conditions are kept
abstract as strings). -/
structure DeploymentStatus where
  name : String
  inNamespace : String
  replicas : Int
  readyReplicas : Int
  availableReplicas : Int
  conditions : List String
  pods : List PodStatus
  createdAt : String
deriving DecidableEq, Repr

/-- One `corev1.ServicePort` as reported by `GetServiceInfo`. -/
structure ServicePort where
  name : String
  port : Int
  targetPort : Int
  protocol : String
deriving DecidableEq, Repr

/-- The map `GetServiceInfo` returns. -/
structure ServiceInfo where
  name : String
  inNamespace : String
  clusterIP : String
  ports : List ServicePort
  type : String
  createdAt : String
deriving DecidableEq, Repr

/-- A cluster-gateway invocation, recorded in order of execution. -/
inductive ClusterCall where
  | createNamespace (name : String) (pr : Int) (service : String)
  | deployTestPod (inNamespace name : String)
  | createService (inNamespace name : String)
  | listByPR (pr : Int)
  | getDeploymentStatus (inNamespace name : String)
  | getServiceInfo (inNamespace name : String)
  | cleanupByPR (pr : Int)
  | applyManifest (inNamespace : String)
deriving DecidableEq, Repr

/-- The cluster gateway: one oracle per `K8sService` primitive the command
handlers invoke (the `Except` error is the Go error's message). -/
structure K8sGateway where
  createNamespace : String → Int → String → Except String Unit
  deployTestPod : String → String → Except String Unit
  createService : String → String → Except String Unit
  getPreviewNamespacesByPR : Int → Except String (List NsInfo)
  getDeploymentStatus : String → String → Except String DeploymentStatus
  getServiceInfo : String → String → Except String ServiceInfo
  cleanupPreviewNamespaces : Int → Except String Unit
  deployFromParsedManifest : String → ParsedManifest → Except String Unit

/-! ## Orchestrator helpers (services/command_k8s.go) -/

/-- `strings.ReplaceAll(serviceName, "/", "-")`: the pattern is a single
character, so the replacement is a character map. -/
def cleanServiceName (s : String) : String :=
  ⟨s.data.map (fun c => if c = '/' then '-' else c)⟩

/-- The deterministic preview-namespace name
(`fmt.Sprintf("preview-pr-%d-%s", prNumber, clean)`). -/
def previewNamespaceName (pr : Int) (clean : String) : String :=
  "preview-pr-" ++ toString pr ++ "-" ++ clean

/-- `formatNamespaceList`. -/
def formatNamespaceList (names : List String) : String :=
  String.join (names.map (fun name => "- `" ++ name ++ "`\n"))

/-- `formatAvailableServicesList`. -/
def formatAvailableServicesList (services : List String) : String :=
  String.join (services.map (fun service => "- `" ++ service ++ "`\n"))

/-- `CommandServiceK8s.formatResourcesList`. -/
def formatResourcesList (resources : List String) : String :=
  String.join (resources.map (fun resource => "- **" ++ resource ++ "**\n"))

/-- Rendering of `fmt` `%v` on the `ports` slice inside the status content
(kept schematic: no claim depends on this text). -/
def formatPorts (ports : List ServicePort) : String :=
  "[" ++ String.intercalate " " (ports.map (fun p => p.name)) ++ "]"

/-! ## `HandlePreviewK8s` (the three-step provisioning workflow) -/

/-- `HandlePreviewK8s`: resolve the target (default `nginx-test`), sanitize
it, derive the namespace name, then create namespace → deploy pod → create
service, stopping at the first failure.  The fire-and-forget
`WaitForDeployment` goroutine makes no synchronous cluster call and is not
part of the recorded call list. -/
def HandlePreviewK8s (g : K8sGateway) (cmd : Command) :
    CommandResponse × List ClusterCall :=
  let serviceName := if cmd.service = "" then "nginx-test" else cmd.service
  let cleanName := cleanServiceName serviceName
  let namespaceName := previewNamespaceName cmd.prNumber cleanName
  match g.createNamespace namespaceName cmd.prNumber serviceName with
  | .error e =>
    ({ success := false, message := "Preview deployment failed",
       content := "## ❌ Preview Deployment Failed\n\n**Error:** " ++ e
         ++ "\n\n**Service:** " ++ serviceName ++ "\n**Namespace:** " ++ namespaceName
         ++ "\n\n*Please check cluster permissions and try again.*",
       data := [] },
     [.createNamespace namespaceName cmd.prNumber serviceName])
  | .ok _ =>
    match g.deployTestPod namespaceName cleanName with
    | .error e =>
      ({ success := false, message := "Pod deployment failed",
         content := "## ❌ Pod Deployment Failed\n\n**Error:** " ++ e
           ++ "\n\n**Service:** " ++ serviceName ++ "\n**Namespace:** " ++ namespaceName
           ++ "\n\n*Namespace created but pod deployment failed.*",
         data := [] },
       [.createNamespace namespaceName cmd.prNumber serviceName,
        .deployTestPod namespaceName cleanName])
    | .ok _ =>
      match g.createService namespaceName cleanName with
      | .error e =>
        ({ success := false, message := "Service creation failed",
           content := "## ❌ Service Creation Failed\n\n**Error:** " ++ e
             ++ "\n\n**Service:** " ++ serviceName ++ "\n**Namespace:** " ++ namespaceName
             ++ "\n\n*Pod deployed but service creation failed.*",
           data := [] },
         [.createNamespace namespaceName cmd.prNumber serviceName,
          .deployTestPod namespaceName cleanName,
          .createService namespaceName cleanName])
      | .ok _ =>
        ({ success := true, message := "Preview deployment started",
           content := "## 🚀 Preview Deployment Started\n\n**👤 Triggered by:** @"
             ++ cmd.user ++ "\n**🎯 Service:** " ++ serviceName ++ "\n**🔗 PR:** #"
             ++ toString cmd.prNumber ++ "\n**📦 Namespace:** `" ++ namespaceName
             ++ "`\n\n### 📋 Deployment Status\n- ✅ Namespace created successfully\n"
             ++ "- ✅ Pod deployment initiated (nginx:alpine)\n"
             ++ "- ✅ Service created for pod exposure\n- 🔄 Pod startup in progress...\n\n"
             ++ "### 📊 Resources Created\n- **Deployment:** `" ++ cleanName
             ++ "`\n- **Service:** `" ++ cleanName ++ "` (ClusterIP)\n- **Labels:** preview=true, pr-number="
             ++ toString cmd.prNumber ++ "\n\n**Estimated ready time:** 30-60 seconds\n\n"
             ++ "*Use `/status` to check deployment progress*",
           data := [("service", .str serviceName),
                    ("clean_service_name", .str cleanName),
                    ("namespace", .str namespaceName),
                    ("pr_number", .int cmd.prNumber),
                    ("status", .str "deploying")] },
         [.createNamespace namespaceName cmd.prNumber serviceName,
          .deployTestPod namespaceName cleanName,
          .createService namespaceName cleanName])

/-! ## `HandleStatusK8s` (status aggregation) -/

/-- The `info` map of one preview namespace as `GetPreviewNamespacesByPR`
builds it. -/
def nsDict (ns : NsInfo) : List (String × GoValue) :=
  [("name", .str ns.name), ("service", .str ns.service),
   ("created_at", .str ns.createdAt), ("status", .str ns.status)]

/-- The map of one pod inside `GetDeploymentStatus`'s result. -/
def podDict (p : PodStatus) : GoValue :=
  .dict [("name", .str p.name), ("status", .str p.status), ("ready", .bool p.ready)]

/-- The map `GetDeploymentStatus` returns, as stored under
`deployment_status`. -/
def deploymentStatusDict (d : DeploymentStatus) : GoValue :=
  .dict [("name", .str d.name), ("namespace", .str d.inNamespace),
         ("replicas", .int d.replicas), ("ready_replicas", .int d.readyReplicas),
         ("available_replicas", .int d.availableReplicas),
         ("conditions", .list (d.conditions.map .str)),
         ("pods", .list (d.pods.map podDict)),
         ("created_at", .str d.createdAt)]

/-- One loop iteration's enriched preview entry: the namespace map, plus the
deployment status when (and only when) its read succeeded. -/
def enrichEntry (g : K8sGateway) (ns : NsInfo) : GoValue :=
  match g.getDeploymentStatus ns.name ns.service with
  | .ok d => .dict (nsDict ns ++ [("deployment_status", deploymentStatusDict d)])
  | .error _ => .dict (nsDict ns)

/-- One loop iteration's contribution to the status content. -/
def nsStatusContent (g : K8sGateway) (ns : NsInfo) : String :=
  "#### " ++ ns.service ++ "\n- **Namespace:** `" ++ ns.name ++ "`\n- **Service:** "
    ++ ns.service ++ "\n- **Created:** " ++ ns.createdAt ++ "\n\n"
  ++ (match g.getDeploymentStatus ns.name ns.service with
      | .ok d =>
        "- **Deployment Status:** " ++ toString d.readyReplicas ++ "/"
          ++ toString d.replicas ++ " pods ready\n- **Pods:** "
          ++ toString d.pods.length ++ " total\n"
      | .error _ => "- **Deployment Status:** No deployment found\n")
  ++ (match g.getServiceInfo ns.name ns.service with
      | .ok s =>
        "- **Service IP:** " ++ s.clusterIP ++ "\n- **Service Ports:** "
          ++ formatPorts s.ports ++ "\n\n"
      | .error _ => "- **Service:** Not found\n\n")

/-- The two status reads one loop iteration makes. -/
def nsStatusCalls (ns : NsInfo) : List ClusterCall :=
  [.getDeploymentStatus ns.name ns.service, .getServiceInfo ns.name ns.service]

/-- `HandleStatusK8s`: list the PR's preview namespaces; none is a normal
`success=true` empty result; otherwise report each namespace, tolerating
per-namespace read failures (the loop's appends are written as `map`). -/
def HandleStatusK8s (g : K8sGateway) (cmd : Command) :
    CommandResponse × List ClusterCall :=
  match g.getPreviewNamespacesByPR cmd.prNumber with
  | .error e =>
    ({ success := false, message := "Failed to get preview status",
       content := "❌ Error getting preview environments: " ++ e, data := [] },
     [.listByPR cmd.prNumber])
  | .ok previewNamespaces =>
    if previewNamespaces.length = 0 then
      ({ success := true, message := "No preview environments found",
         content := "## 📊 Preview Environment Status\n\n**PR:** #"
           ++ toString cmd.prNumber
           ++ "\n\n### ℹ️ No Preview Environments Found\n\nNo preview environments are currently active for this PR.\n\n"
           ++ "**To create preview environments:**\n- Run `/preview` to deploy all changed services\n"
           ++ "- Run `/preview <service>` to deploy a specific service\n\n*Status checked by: @"
           ++ cmd.user ++ "*",
         data := [("pr_number", .int cmd.prNumber),
                  ("active_previews", .list []),
                  ("total_previews", .int 0)] },
       [.listByPR cmd.prNumber])
    else
      ({ success := true, message := "Preview environment status",
         content := "## 📊 Preview Environment Status\n\n**PR:** #"
           ++ toString cmd.prNumber ++ "\n\n### 🟢 Active Preview Environments\n\n"
           ++ String.join (previewNamespaces.map (nsStatusContent g))
           ++ "*Status checked by: @" ++ cmd.user ++ "*",
         data := [("pr_number", .int cmd.prNumber),
                  ("active_previews", .list (previewNamespaces.map (enrichEntry g))),
                  ("total_previews", .int previewNamespaces.length)] },
       .listByPR cmd.prNumber :: previewNamespaces.flatMap nsStatusCalls)

/-! ## `HandleCleanupK8s` (teardown) -/

/-- `HandleCleanupK8s`: list the PR's preview namespaces; none is a normal
`success=true` "nothing to cleanup" result carrying no `Data`; otherwise
delete them all through `CleanupPreviewNamespaces` and enumerate the removed
names. -/
def HandleCleanupK8s (g : K8sGateway) (cmd : Command) :
    CommandResponse × List ClusterCall :=
  match g.getPreviewNamespacesByPR cmd.prNumber with
  | .error e =>
    ({ success := false, message := "Cleanup failed",
       content := "❌ Error getting preview namespaces: " ++ e, data := [] },
     [.listByPR cmd.prNumber])
  | .ok previewNamespaces =>
    if previewNamespaces.length = 0 then
      ({ success := true, message := "Nothing to cleanup",
         content := "## ℹ️ Manual Cleanup - Nothing to Clean\n\nNo preview environments were found for PR #"
           ++ toString cmd.prNumber
           ++ ".\n\nAll preview resources appear to already be cleaned up.\n\n*Cleanup triggered by: @"
           ++ cmd.user ++ "*",
         data := [] },
       [.listByPR cmd.prNumber])
    else
      match g.cleanupPreviewNamespaces cmd.prNumber with
      | .error e =>
        ({ success := false, message := "Cleanup failed",
           content := "## ❌ Cleanup Failed\n\n**Error:** " ++ e ++ "\n\n**PR:** #"
             ++ toString cmd.prNumber ++ "\n\n*Please check cluster permissions and try again.*",
           data := [] },
         [.listByPR cmd.prNumber, .cleanupByPR cmd.prNumber])
      | .ok _ =>
        let namespaceNames := previewNamespaces.map (fun ns => ns.name)
        ({ success := true, message := "Cleanup completed",
           content := "## 🧹 Manual Cleanup Completed\n\nSuccessfully cleaned up preview environments for PR #"
             ++ toString cmd.prNumber ++ ":\n\n" ++ formatNamespaceList namespaceNames
             ++ "\n### 📋 Resources Cleaned Up\n- ✅ Namespaces deleted ("
             ++ toString namespaceNames.length
             ++ " total)\n- ✅ Deployments and pods removed\n- ✅ Services and endpoints cleaned up\n"
             ++ "- ✅ Labels and annotations removed\n\n*Cleanup triggered by: @" ++ cmd.user ++ "*",
           data := [("pr_number", .int cmd.prNumber),
                    ("cleaned_namespaces", .list (namespaceNames.map .str)),
                    ("total_cleaned", .int namespaceNames.length)] },
         [.listByPR cmd.prNumber, .cleanupByPR cmd.prNumber])

/-! ## Manifest discovery on the repository filesystem -/

/-- The repository filesystem as the orchestrator sees it: the set of
existing regular files, the set of existing directories, and file reads.
`filepath.Glob`'s sorting of matches is not modelled; no property here
depends on match order. -/
structure RepoFS where
  files : List String
  dirs : List String
  readFile : String → Except String String

/-- `os.Stat` success on a file path. -/
def RepoFS.fileExists (fs : RepoFS) (p : String) : Bool := fs.files.contains p

/-- `os.Stat` success on a directory path. -/
def RepoFS.dirExists (fs : RepoFS) (p : String) : Bool := fs.dirs.contains p

/-- Drop one trailing slash (part of `filepath.Join`'s cleaning, needed for
the `"k8s/"`-style scan paths). -/
def stripTrailingSlash (s : String) : String :=
  if s.data.getLast? = some '/' then ⟨s.data.dropLast⟩ else s

/-- `filepath.Join(a, b)` on the already-clean inputs this program uses:
joining onto `"."` yields the cleaned second component. -/
def joinPath (a b : String) : String :=
  let b := stripTrailingSlash b
  if a = "." then b else a ++ "/" ++ b

/-- Whether `f` is a file directly inside directory `dir` (what a
single-star glob in `dir` can match). -/
def inDir (dir f : String) : Bool :=
  match dropKw (dir ++ "/").data f.data with
  | some rest => !rest.isEmpty && !rest.contains '/'
  | none => false

/-- `filepath.Glob(dir ++ "/*" ++ ext)`. -/
def globFiles (fs : RepoFS) (dir ext : String) : List String :=
  fs.files.filter (fun f => inDir dir f && f.endsWith ext)

/-- `filepath.Base` on the clean, non-empty paths this program scans. -/
def baseName (p : String) : String :=
  ⟨(p.data.reverse.takeWhile (fun c => c ≠ '/')).reverse⟩

/-- `strings.TrimSuffix(f, filepath.Ext(f))`: the file name up to its final
dot (unchanged when there is none). -/
def stripLastExt (f : String) : String :=
  if f.data.contains '.' then ⟨((f.data.reverse.dropWhile (fun c => c ≠ '.')).reverse).dropLast⟩
  else f

/-- `filepath.Dir` on the clean paths this program scans. -/
def dirOf (p : String) : String :=
  if p.data.contains '/' then
    let d := ((p.data.reverse.dropWhile (fun c => c ≠ '/')).drop 1).reverse
    if d.isEmpty then "/" else ⟨d⟩
  else "."

/-- `CommandServiceK8s.extractServiceNameFromPath`. -/
def extractServiceNameFromPath (manifestPath : String) : String :=
  let fileName := baseName manifestPath
  let serviceName := stripLastExt fileName
  if serviceName = "deployment" || serviceName = "service" || serviceName = "app" then
    let dirName := baseName (dirOf manifestPath)
    if dirName ≠ "." && dirName ≠ "/" then dirName else serviceName
  else serviceName

/-- The conventional scan directories. -/
def scanPaths : List String := ["k8s/", "kubernetes/", "manifests/", "deploy/"]

/-- `CommandServiceK8s.scanForManifestServices`. -/
def scanForManifestServices (fs : RepoFS) (repoPath : String) : List String :=
  scanPaths.flatMap (fun scanPath =>
    let fullScanPath := joinPath repoPath scanPath
    if !fs.dirExists fullScanPath then []
    else
      let files := globFiles fs fullScanPath ".yaml" ++ globFiles fs fullScanPath ".yml"
      files.filterMap (fun file =>
        let serviceName := extractServiceNameFromPath file
        if serviceName ≠ "" then
          some (serviceName ++ " (manifest from " ++ scanPath ++ ")")
        else none))

/-- `CommandServiceK8s.GetAvailableServicesWithManifest`. -/
def GetAvailableServicesWithManifest (fs : RepoFS) (repoPath : String) : List String :=
  "nginx (default)" :: scanForManifestServices fs repoPath

/-- The six conventional manifest locations `isManifestBasedService`
checks. -/
def manifestProbePaths (serviceName : String) : List String :=
  ["k8s/" ++ serviceName ++ ".yaml",
   "k8s/" ++ serviceName ++ ".yml",
   "k8s/" ++ serviceName ++ "-deployment.yaml",
   "kubernetes/" ++ serviceName ++ ".yaml",
   "manifests/" ++ serviceName ++ ".yaml",
   "deploy/" ++ serviceName ++ ".yaml"]

/-- `CommandServiceK8s.isManifestBasedService`. -/
def isManifestBasedService (fs : RepoFS) (serviceName repoPath : String) : Bool :=
  (manifestProbePaths serviceName).any
    (fun manifestPath => fs.fileExists (joinPath repoPath manifestPath))

/-- The four locations `getManifestPath` resolves, in precedence order. -/
def manifestResolvePaths (serviceName : String) : List String :=
  ["k8s/" ++ serviceName ++ ".yaml",
   "k8s/" ++ serviceName ++ ".yml",
   "kubernetes/" ++ serviceName ++ ".yaml",
   "manifests/" ++ serviceName ++ ".yaml"]

/-- `CommandServiceK8s.getManifestPath`: the first existing conventional
path, as a full path, or the empty string. -/
def getManifestPath (fs : RepoFS) (serviceName repoPath : String) : String :=
  match (manifestResolvePaths serviceName).find?
      (fun manifestPath => fs.fileExists (joinPath repoPath manifestPath)) with
  | some manifestPath => joinPath repoPath manifestPath
  | none => ""

/-- The `ServiceNotFound` content of `HandlePreviewK8sEnhanced`. -/
def serviceNotFoundContent (serviceName : String) (availableServices : List String) : String :=
  "## ❌ Service Not Found\n\n**Service:** `" ++ serviceName
    ++ "`\n\n**Available services:**\n" ++ formatAvailableServicesList availableServices
    ++ "\n\n**Usage Examples:**\n- `/preview` - Deploy nginx (default)\n"
    ++ "- `/preview myapp` - Deploy from k8s/myapp.yaml\n"
    ++ "- `/preview frontend` - Deploy from k8s/frontend.yaml\n\n"
    ++ "**To add new services:**\nCreate YAML manifest files in `k8s/`, `kubernetes/`, `manifests/`, or `deploy/` folders."

/-! ## `HandlePreviewK8sEnhanced` (manifest-aware provisioning) -/

/-- The success content of `HandlePreviewK8sEnhanced`. -/
def enhancedSuccessContent (user serviceName deploymentMethod : String) (pr : Int)
    (namespaceName : String) (deployedResources : List String)
    (manifestNote : String) : String :=
  "## 🚀 Preview Deployment Started\n\n**👤 Triggered by:** @" ++ user
    ++ "\n**🎯 Service:** " ++ serviceName ++ "\n**📄 Method:** " ++ deploymentMethod
    ++ "\n**🔗 PR:** #" ++ toString pr ++ "\n**📦 Namespace:** `" ++ namespaceName
    ++ "`\n\n### 📋 Deployment Status\n- ✅ Namespace created successfully\n- ✅ Resources deployed: "
    ++ String.intercalate ", " deployedResources
    ++ "\n- 🔄 Pod startup in progress...\n\n### 📊 Resources Created\n"
    ++ formatResourcesList deployedResources
    ++ "\n\n**Estimated ready time:** 30-60 seconds" ++ manifestNote

/-- `CommandServiceK8s.HandlePreviewK8sEnhanced`: manifest-aware preview.
An explicitly-named non-default target with no manifest fails fast with
`ServiceNotFound` before any cluster call; otherwise namespace creation is
followed by either manifest ingestion + apply or the default
pod-and-service pair. -/
def HandlePreviewK8sEnhanced (g : K8sGateway) (fs : RepoFS) (o : YamlOracle)
    (cmd : Command) (repoPath : String) : CommandResponse × List ClusterCall :=
  let serviceName := if cmd.service = "" then "nginx" else cmd.service
  let isManifest := isManifestBasedService fs serviceName repoPath
  let manifestPath := if isManifest then getManifestPath fs serviceName repoPath else ""
  let deploymentMethod := if isManifest then "manifest-deployment" else "default (nginx:alpine)"
  if serviceName ≠ "nginx" && !isManifest then
    ({ success := false, message := "Service not found",
       content := serviceNotFoundContent serviceName
         (GetAvailableServicesWithManifest fs repoPath),
       data := [] },
     [])
  else
    let cleanName := cleanServiceName serviceName
    let namespaceName := previewNamespaceName cmd.prNumber cleanName
    match g.createNamespace namespaceName cmd.prNumber serviceName with
    | .error e =>
      ({ success := false, message := "Preview deployment failed",
         content := "## ❌ Preview Deployment Failed\n\n**Error:** " ++ e,
         data := [] },
       [.createNamespace namespaceName cmd.prNumber serviceName])
    | .ok _ =>
      if isManifest then
        match ParseManifestFile fs.readFile o manifestPath with
        | .error e =>
          ({ success := false, message := "Manifest parsing failed",
             content := "## ❌ Manifest Parsing Failed\n\n**Error:** " ++ e
               ++ "\n\n**Manifest File:** " ++ manifestPath,
             data := [] },
           [.createNamespace namespaceName cmd.prNumber serviceName])
        | .ok parsed =>
          match g.deployFromParsedManifest namespaceName parsed with
          | .error e =>
            ({ success := false, message := "Manifest deployment failed",
               content := "## ❌ Manifest Deployment Failed\n\n**Error:** " ++ e
                 ++ "\n\n**Manifest File:** " ++ manifestPath,
               data := [] },
             [.createNamespace namespaceName cmd.prNumber serviceName,
              .applyManifest namespaceName])
          | .ok _ =>
            let deployedResources :=
              parsed.deployments.map (fun d => "Deployment/" ++ d.name)
                ++ parsed.services.map (fun s => "Service/" ++ s.name)
                ++ parsed.configMaps.map (fun c => "ConfigMap/" ++ c.name)
            let manifestNote :=
              "\n\n🎯 **Manifest Deployed:** Successfully deployed from `" ++ manifestPath
                ++ "`\n📋 **Real Deployment:** Resources deployed directly from your manifest!"
            ({ success := true, message := "Preview deployment started",
               content := enhancedSuccessContent cmd.user serviceName deploymentMethod
                 cmd.prNumber namespaceName deployedResources manifestNote,
               data := [("service", .str serviceName),
                        ("clean_service_name", .str cleanName),
                        ("namespace", .str namespaceName),
                        ("deployment_method", .str deploymentMethod),
                        ("manifest_detected", .bool isManifest),
                        ("manifest_path", .str manifestPath),
                        ("deployed_resources", .list (deployedResources.map .str)),
                        ("pr_number", .int cmd.prNumber),
                        ("status", .str "deploying")] },
             [.createNamespace namespaceName cmd.prNumber serviceName,
              .applyManifest namespaceName])
      else
        match g.deployTestPod namespaceName cleanName with
        | .error e =>
          ({ success := false, message := "Pod deployment failed",
             content := "## ❌ Pod Deployment Failed\n\n**Error:** " ++ e,
             data := [] },
           [.createNamespace namespaceName cmd.prNumber serviceName,
            .deployTestPod namespaceName cleanName])
        | .ok _ =>
          match g.createService namespaceName cleanName with
          | .error e =>
            ({ success := false, message := "Service creation failed",
               content := "## ❌ Service Creation Failed\n\n**Error:** " ++ e,
               data := [] },
             [.createNamespace namespaceName cmd.prNumber serviceName,
              .deployTestPod namespaceName cleanName,
              .createService namespaceName cleanName])
          | .ok _ =>
            let deployedResources :=
              ["Deployment/" ++ cleanName, "Service/" ++ cleanName]
            ({ success := true, message := "Preview deployment started",
               content := enhancedSuccessContent cmd.user serviceName deploymentMethod
                 cmd.prNumber namespaceName deployedResources "",
               data := [("service", .str serviceName),
                        ("clean_service_name", .str cleanName),
                        ("namespace", .str namespaceName),
                        ("deployment_method", .str deploymentMethod),
                        ("manifest_detected", .bool isManifest),
                        ("manifest_path", .str manifestPath),
                        ("deployed_resources", .list (deployedResources.map .str)),
                        ("pr_number", .int cmd.prNumber),
                        ("status", .str "deploying")] },
             [.createNamespace namespaceName cmd.prNumber serviceName,
              .deployTestPod namespaceName cleanName,
              .createService namespaceName cleanName])

/-! ## Permission gate and the basic `CommandService` handlers -/

/-- The static core-team allow-list (identical in
`handlers.hasDeploymentPermission` and
`CommandService.hasDeploymentPermission`). -/
def coreTeam : List String := ["abdullahainun"]

/-- `hasDeploymentPermission`: membership in the static allow-list. -/
def hasDeploymentPermission (user : String) : Bool :=
  coreTeam.any (fun member => user == member)

/-- `CommandService.getUserPermissions`. -/
def getUserPermissions (user : String) : List (String × GoValue) :=
  [("can_read", .bool true),
   ("can_deploy", .bool (hasDeploymentPermission user)),
   ("is_core", .bool (hasDeploymentPermission user))]

/-- `CommandService.handleHelp` (pure; no cluster access). -/
def handleHelp (cmd : Command) : CommandResponse :=
  { success := true, message := "Help information",
    content := "## 🤖 Available Commands\n\n**📖 Read-Only Commands (Available to Everyone):**\n"
      ++ "- `/help` - Show this help message\n- `/status` - Show current preview environments\n"
      ++ "- `/plan` - Show what would be deployed (dry-run)\n- `/plan <service>` - Show plan for specific service\n\n"
      ++ "**🚀 Deployment Commands (Core Team Only):**\n- `/preview` - Deploy all changed services to preview\n"
      ++ "- `/preview <service>` - Deploy specific service\n- `/cleanup` - Cleanup preview environments\n\n"
      ++ "**Examples:**\n```\n/help\n/status\n/plan\n/plan ai/open-webui\n/preview\n/preview ai/open-webui\n/cleanup\n```\n\n"
      ++ "*Triggered by: @" ++ cmd.user ++ "*",
    data := [("available_commands",
               .list [.str "help", .str "status", .str "plan", .str "preview", .str "cleanup"]),
             ("user_permissions", .dict (getUserPermissions cmd.user))] }

/-- `CommandService.handleStatus` (the basic, pre-cluster placeholder). -/
def handleStatusBasic (cmd : Command) : CommandResponse :=
  { success := true, message := "Preview Environment Status",
    content := "## 📊 Preview Environment Status\n\n**PR:** #" ++ toString cmd.prNumber
      ++ "\n\n### ℹ️ No Preview Environments Found\n\nNo preview environments are currently active for this PR.\n\n"
      ++ "**To create preview environments:**\n- Run `/preview` to deploy all changed services\n"
      ++ "- Run `/preview <service>` to deploy a specific service\n\n*Status checked by: @" ++ cmd.user ++ "*",
    data := [("pr_number", .int cmd.prNumber),
             ("active_previews", .list []),
             ("total_previews", .int 0)] }

/-- `CommandService.handlePlan` (pure, read-only). -/
def handlePlan (cmd : Command) : CommandResponse :=
  let serviceName := if cmd.service = "" then "all changed services" else cmd.service
  { success := true, message := "Deployment plan generated",
    content := "## 📋 Deployment Plan\n\n**👤 Requested by:** @" ++ cmd.user
      ++ "\n**🎯 Services to deploy:** " ++ serviceName ++ "\n**🔗 PR:** #" ++ toString cmd.prNumber
      ++ "\n\n### 📦 Service Analysis\n- **Status:** ✅ Plan generation successful\n- **Services detected:** "
      ++ serviceName ++ "\n- **Validation:** ✅ All checks passed\n- **Estimated deployment time:** ~2-3 minutes\n\n"
      ++ "### 🚀 Next Steps\n- Run `/preview` to deploy these services\n- Run `/preview <service>` to deploy specific service\n\n"
      ++ "*This plan is read-only and safe for everyone to use.*",
    data := [("services", .list [.str serviceName]),
             ("pr_number", .int cmd.prNumber),
             ("safe_to_run", .bool true)] }

/-- `CommandService.handlePreview` (the basic, pre-cluster placeholder;
permission-gated). -/
def handlePreviewBasic (cmd : Command) : CommandResponse :=
  if !hasDeploymentPermission cmd.user then
    { success := false, message := "Access denied",
      content := "🔒 **Access Denied for @" ++ cmd.user
        ++ "**\n\nSorry, you don't have permission to trigger deployments.\n\n"
        ++ "**Available options:**\n- 📋 Use `/plan` to see what would be deployed (read-only)\n"
        ++ "- 📊 Use `/status` to check current preview environments\n- 📖 Use `/help` to see all available commands\n\n"
        ++ "**Want deployment access?**\nContact @abdullahainun for collaboration opportunities.",
      data := [] }
  else
    let serviceName := if cmd.service = "" then "all changed services" else cmd.service
    { success := true, message := "Preview deployment started",
      content := "## 🚀 Preview Deployment Started\n\n**👤 Triggered by:** @" ++ cmd.user
        ++ "\n**🎯 Services:** " ++ serviceName ++ "\n**🔗 PR:** #" ++ toString cmd.prNumber
        ++ "\n\n### 📋 Deployment Status\n- ✅ Validation passed\n- ✅ Resources planned\n- 🔄 Deployment in progress...\n\n"
        ++ "**Estimated completion:** 2-3 minutes\n\n*Deployment logic will be implemented in next phase.*",
      data := [("services", .list [.str serviceName]),
               ("pr_number", .int cmd.prNumber),
               ("status", .str "in_progress")] }

/-- `CommandService.handleCleanup` (the basic, pre-cluster placeholder;
permission-gated). -/
def handleCleanupBasic (cmd : Command) : CommandResponse :=
  if !hasDeploymentPermission cmd.user then
    { success := false, message := "Access denied",
      content := "🔒 Access denied for @" ++ cmd.user
        ++ ". Only core team can cleanup environments.",
      data := [] }
  else
    { success := true, message := "Cleanup started",
      content := "## 🧹 Cleanup Started\n\n**👤 Triggered by:** @" ++ cmd.user
        ++ "\n**🔗 PR:** #" ++ toString cmd.prNumber
        ++ "\n\n### 📋 Cleanup Status\n- 🔍 Scanning for preview environments...\n- 🗑️ Cleanup in progress...\n\n"
        ++ "*Cleanup logic will be implemented in next phase.*",
      data := [("pr_number", .int cmd.prNumber),
               ("status", .str "in_progress")] }

/-- `CommandService.ProcessCommand`. -/
def ProcessCommand (cmd : Command) : CommandResponse :=
  if cmd.type = "help" then handleHelp cmd
  else if cmd.type = "status" then handleStatusBasic cmd
  else if cmd.type = "plan" then handlePlan cmd
  else if cmd.type = "preview" then handlePreviewBasic cmd
  else if cmd.type = "cleanup" then handleCleanupBasic cmd
  else
    { success := false, message := "Unknown command type: " ++ cmd.type,
      content := "", data := [] }

/-! ## Webhook dispatch (`Handler.GitHubWebhook`, handlers/webhook.go)

The command-processing switch of the webhook handler: `help` and `plan` use
the basic (cluster-free) service, `status` the cluster status handler, and
`preview`/`cleanup` are permission-gated before any cluster handler runs. -/

/-- The `switch cmd.Type` of `GitHubWebhook`, with the cluster calls each
branch makes. -/
def processWebhookCommand (g : K8sGateway) (cmd : Command) :
    CommandResponse × List ClusterCall :=
  if cmd.type = "help" then (ProcessCommand cmd, [])
  else if cmd.type = "status" then HandleStatusK8s g cmd
  else if cmd.type = "plan" then (ProcessCommand cmd, [])
  else if cmd.type = "preview" then
    if !hasDeploymentPermission cmd.user then
      ({ success := false, message := "Access denied",
         content := "🔒 Access denied. Only core team can deploy.", data := [] },
       [])
    else HandlePreviewK8s g cmd
  else if cmd.type = "cleanup" then
    if !hasDeploymentPermission cmd.user then
      ({ success := false, message := "Access denied",
         content := "🔒 Access denied. Only core team can cleanup.", data := [] },
       [])
    else HandleCleanupK8s g cmd
  else
    ({ success := false, message := "Unknown command", content := "", data := [] }, [])

/-! ## Concrete instances (used to evaluate the theorems on real inputs) -/

/-- A gateway over a cluster with no preview namespaces, every mutation
accepted, and no readable workload or service status. -/
def gNoPreviews : K8sGateway :=
  { createNamespace := fun _ _ _ => .ok ()
  , deployTestPod := fun _ _ => .ok ()
  , createService := fun _ _ => .ok ()
  , getPreviewNamespacesByPR := fun _ => .ok []
  , getDeploymentStatus := fun _ _ => .error "deployment not found"
  , getServiceInfo := fun _ _ => .error "service not found"
  , cleanupPreviewNamespaces := fun _ => .ok ()
  , deployFromParsedManifest := fun _ _ => .ok () }

/-- A gateway whose namespace creation behaves like the cluster's conflict
detection: creation fails exactly on the already-existing names. -/
def conflictGateway (existing : List String) : K8sGateway :=
  { gNoPreviews with
    createNamespace := fun name _ _ =>
      if existing.contains name then
        .error ("namespaces \"" ++ name ++ "\" already exists")
      else .ok () }

/-- An empty repository: no manifest files, no scan directories. -/
def fsNone : RepoFS := ⟨[], [], fun _ => .error "open: no such file or directory"⟩

/-- A YAML oracle for which nothing decodes. -/
def oNone : YamlOracle := ⟨fun _ => none, fun _ => none, fun _ => none, fun _ => none⟩

/-- A YAML oracle over four symbolic documents: a good Deployment, a good
Service, an unrecognized kind and a document without a kind. -/
def oDocs : YamlOracle :=
  { generic := fun d =>
      if d = "docDep" then some (some "Deployment")
      else if d = "docSvc" then some (some "Service")
      else if d = "docCron" then some (some "CronJob")
      else if d = "docNoKind" then some none
      else none
  , decodeDeployment := fun d => if d = "docDep" then some ⟨"backend"⟩ else none
  , decodeService := fun d => if d = "docSvc" then some ⟨"backend"⟩ else none
  , decodeConfigMap := fun _ => none }

/-- A YAML oracle with, for each supported kind, two distinct documents
decoding to the same resource name. -/
def oDup : YamlOracle :=
  { generic := fun d =>
      if d = "dup1" || d = "dup2" then some (some "Deployment")
      else if d = "svc1" || d = "svc2" then some (some "Service")
      else if d = "cm1" || d = "cm2" then some (some "ConfigMap")
      else none
  , decodeDeployment := fun d =>
      if d = "dup1" then some ⟨"backend"⟩
      else if d = "dup2" then some ⟨"backend"⟩ else none
  , decodeService := fun d =>
      if d = "svc1" then some ⟨"backend"⟩
      else if d = "svc2" then some ⟨"backend"⟩ else none
  , decodeConfigMap := fun d =>
      if d = "cm1" then some ⟨"backend"⟩
      else if d = "cm2" then some ⟨"backend"⟩ else none }

/-- A read oracle holding one four-document manifest file. -/
def readDocs : String → Except String String :=
  fun p => if p = "k8s/backend.yaml" then .ok "docDep---docCron---docNoKind---docSvc"
           else .error "open: no such file or directory"

/-- A read oracle holding one manifest file with two same-name same-kind
documents. -/
def readDup : String → Except String String :=
  fun p => if p = "k8s/backend.yaml" then .ok "dup1---dup2"
           else .error "open: no such file or directory"

/-- A cleanup command for PR 123 from the allow-listed actor. -/
def cmdCleanup123 : Command :=
  { type := "cleanup", service := "", user := "abdullahainun", prNumber := 123 }

/-- A document that survives one raw (untrimmed) piece of the split: it is
non-empty after trimming and contributes one entry. -/
def goodRaw (o : YamlOracle) (docRaw : String) : Bool :=
  if trimGo docRaw = "" then false else goodDoc o (trimGo docRaw)

/-- The parse step on an already-trimmed, non-empty document. -/
def parseDocStep (o : YamlOracle) (p : ParsedManifest) (d : String) : ParsedManifest :=
  match parseDocument o d p with
  | .ok p' => p'
  | .error _ => p

/-- The Deployment entry one document contributes to the parse: its decoded
deployment when its declared kind is `Deployment`, nothing otherwise. -/
def depOf (o : YamlOracle) (d : String) : Option K8sDeployment :=
  if o.generic d = some (some "Deployment") then o.decodeDeployment d else none

/-- The Service entry one document contributes to the parse. -/
def svcOf (o : YamlOracle) (d : String) : Option K8sResService :=
  if o.generic d = some (some "Service") then o.decodeService d else none

/-- The ConfigMap entry one document contributes to the parse. -/
def cmOf (o : YamlOracle) (d : String) : Option K8sConfigMap :=
  if o.generic d = some (some "ConfigMap") then o.decodeConfigMap d else none

/-- A gateway whose namespace creation is rejected by the cluster. -/
def gFailNs : K8sGateway :=
  { gNoPreviews with createNamespace := fun _ _ _ => .error "namespaces is forbidden" }

/-- A preview command for service `web` on PR 7. -/
def cmdPreviewWeb : Command :=
  { type := "preview", service := "web", user := "abdullahainun", prNumber := 7 }

/-- A status command for PR 123. -/
def cmdStatus123 : Command :=
  { type := "status", service := "", user := "testuser", prNumber := 123 }

/-! ## Sanity checks of the grammar embedding on concrete inputs -/

example : ParseCommand "/preview ai/open-webui" "u" 9 =
    .ok { type := "preview", service := "ai/open-webui", user := "u", prNumber := 9 } := rfl

example : ParseCommand "  /plan  " "u" 9 =
    .ok { type := "plan", service := "", user := "u", prNumber := 9 } := rfl

example : ParseCommand "/planx" "u" 9 = .error "unknown command: /planx" := rfl

example : ParseCommand "/preview" "u" 9 =
    .ok { type := "preview", service := "", user := "u", prNumber := 9 } := rfl

/-! ## Support lemmas: character classes, trimming and keyword matching -/

lemma target_not_reSpace {c : Char} (h : isTargetChar c = true) : isReSpace c = false := by
  cases hr : isReSpace c
  · rfl
  · exfalso
    simp only [isReSpace, Bool.or_eq_true, decide_eq_true_eq] at hr
    obtain (((h1 | h1) | h1) | h1) | h1 := hr <;> subst h1 <;> exact absurd h (by decide)

lemma target_not_goSpace {c : Char} (h : isTargetChar c = true) : isGoSpace c = false := by
  cases hr : isGoSpace c
  · rfl
  · exfalso
    simp only [isGoSpace, Bool.or_eq_true, decide_eq_true_eq] at hr
    obtain ((((h1 | h1) | h1) | h1) | h1) | h1 := hr <;> subst h1 <;>
      exact absurd h (by decide)

lemma takeWhile_all_self {p : Char → Bool} {l : List Char} (h : l.all p = true) :
    l.takeWhile p = l := by
  induction l with
  | nil => rfl
  | cons a t ih =>
    simp only [List.all_cons, Bool.and_eq_true] at h
    simp [List.takeWhile_cons, h.1, ih h.2]

lemma dropWhile_all_nil {p : Char → Bool} {l : List Char} (h : l.all p = true) :
    l.dropWhile p = [] := by
  induction l with
  | nil => rfl
  | cons a t ih =>
    simp only [List.all_cons, Bool.and_eq_true] at h
    simp [List.dropWhile_cons, h.1, ih h.2]

lemma trim_list_noedge {l : List Char} {c d : Char} {t u : List Char}
    (hfront : l = c :: t) (hc : isGoSpace c = false)
    (hback : l = u ++ [d]) (hd : isGoSpace d = false) :
    ((l.dropWhile isGoSpace).reverse.dropWhile isGoSpace).reverse = l := by
  subst hfront
  rw [List.dropWhile_cons]
  simp only [hc, Bool.false_eq_true, if_false]
  rw [hback, List.reverse_append]
  simp only [List.reverse_cons, List.reverse_nil, List.nil_append, List.singleton_append]
  rw [List.dropWhile_cons]
  simp only [hd, Bool.false_eq_true, if_false]
  simp

lemma trimGo_eq_of_edges {s : String} {c d : Char} {t u : List Char}
    (hfront : s.data = c :: t) (hc : isGoSpace c = false)
    (hback : s.data = u ++ [d]) (hd : isGoSpace d = false) : trimGo s = s := by
  unfold trimGo
  rw [trim_list_noedge hfront hc hback hd]

lemma dropKw_append_self (kw rest : List Char) : dropKw kw (kw ++ rest) = some rest := by
  unfold dropKw
  rw [List.take_left, if_pos rfl, List.drop_left]

lemma dropKw_append_ne (kw l rest : List Char) (k : Nat) (hk1 : k ≤ kw.length)
    (hk2 : k ≤ l.length) (h : l.take k ≠ kw.take k) :
    dropKw kw (l ++ rest) = none := by
  unfold dropKw
  rw [if_neg]
  intro he
  apply h
  have h1 : (l ++ rest).take k = l.take k := List.take_append_of_le_length hk2
  have h2 : kw.take k = l.take k := by
    rw [← he, List.take_take, min_eq_left hk1, h1]
  exact h2.symm

lemma matchKw_append_ne (kw : String) (l rest : List Char) (k : Nat)
    (hk1 : k ≤ kw.data.length) (hk2 : k ≤ l.length)
    (h : l.take k ≠ kw.data.take k) : matchKw kw (l ++ rest) = false := by
  unfold matchKw
  rw [dropKw_append_ne kw.data l rest k hk1 hk2 h]

lemma matchKwTarget_append_ne (kw : String) (l rest : List Char) (k : Nat)
    (hk1 : k ≤ kw.data.length) (hk2 : k ≤ l.length)
    (h : l.take k ≠ kw.data.take k) : matchKwTarget kw (l ++ rest) = none := by
  unfold matchKwTarget
  rw [dropKw_append_ne kw.data l rest k hk1 hk2 h]

lemma all_reSpace_false_of_token {x : Char} {xs : List Char}
    (hx : isTargetChar x = true) : (' ' :: x :: xs).all isReSpace = false := by
  simp [List.all_cons, target_not_reSpace hx]

lemma matchKw_space_token (kw : String) {x : Char} {xs : List Char}
    (hx : isTargetChar x = true) :
    matchKw kw (kw.data ++ (' ' :: x :: xs)) = false := by
  unfold matchKw
  rw [dropKw_append_self]
  exact all_reSpace_false_of_token hx

lemma matchOptTarget_space_token {x : Char} {xs : List Char}
    (hall : (x :: xs).all isTargetChar = true) :
    matchOptTarget (' ' :: x :: xs) = some (some ⟨x :: xs⟩) := by
  have hx : isTargetChar x = true := by
    simp only [List.all_cons, Bool.and_eq_true] at hall
    exact hall.1
  unfold matchOptTarget
  rw [if_neg]
  · simp only
    rw [List.takeWhile_cons, List.dropWhile_cons]
    simp only [show isReSpace ' ' = true from rfl, if_true]
    rw [List.takeWhile_cons, List.dropWhile_cons]
    simp only [target_not_reSpace hx, Bool.false_eq_true, if_false]
    simp only [List.isEmpty_cons]
    rw [takeWhile_all_self hall, dropWhile_all_nil hall]
    simp
  · simp [all_reSpace_false_of_token hx]

lemma matchKwTarget_self (kw : String) (rest : List Char) :
    matchKwTarget kw (kw.data ++ rest) = matchOptTarget rest := by
  unfold matchKwTarget
  rw [dropKw_append_self]

lemma trim_keyword_token (kwsp tok : String) (c : Char) (t : List Char)
    (hk : kwsp.data = c :: t) (hc : isGoSpace c = false)
    {x : Char} {xs : List Char} (htok : tok.data = x :: xs)
    (hall : (x :: xs).all isTargetChar = true) :
    trimGo (kwsp ++ tok) = kwsp ++ tok := by
  have hfront : (kwsp ++ tok).data = c :: (t ++ tok.data) := by
    rw [String.data_append, hk]; rfl
  have hne : tok.data ≠ [] := by rw [htok]; simp
  obtain ⟨u, d, hud, hdmem⟩ : ∃ u d, tok.data = u ++ [d] ∧ d ∈ tok.data :=
    ⟨tok.data.dropLast, tok.data.getLast hne,
      (List.dropLast_append_getLast hne).symm, List.getLast_mem hne⟩
  have hdtarget : isTargetChar d = true := by
    rw [htok] at hdmem
    exact List.all_eq_true.mp hall d hdmem
  have hback : (kwsp ++ tok).data = (kwsp.data ++ u) ++ [d] := by
    rw [String.data_append, hud, List.append_assoc]
  exact trimGo_eq_of_edges hfront hc hback (target_not_goSpace hdtarget)

lemma parse_preview_token (tok user : String) (pr : Int) {x : Char} {xs : List Char}
    (htok : tok.data = x :: xs) (hall : (x :: xs).all isTargetChar = true) :
    ParseCommand ("/preview " ++ tok) user pr =
      .ok { type := "preview", service := tok, user := user, prNumber := pr } := by
  have htrim : trimGo ("/preview " ++ tok) = "/preview " ++ tok :=
    trim_keyword_token _ tok '/' _ rfl (by decide) htok hall
  have hmk : (⟨x :: xs⟩ : String) = tok := by rw [← htok]
  simp only [ParseCommand]
  rw [htrim, String.data_append, htok]
  rw [matchKw_append_ne "/help" ("/preview ".data) (x :: xs) 2 (by decide) (by decide)
        (by decide),
      matchKw_append_ne "/status" ("/preview ".data) (x :: xs) 2 (by decide) (by decide)
        (by decide),
      matchKwTarget_append_ne "/plan" ("/preview ".data) (x :: xs) 3 (by decide) (by decide)
        (by decide)]
  rw [show ("/preview ".data ++ (x :: xs) : List Char) =
        "/preview".data ++ (' ' :: x :: xs) from rfl,
      matchKwTarget_self, matchOptTarget_space_token hall]
  simp [mkCommand, hmk]

lemma parse_plan_token (tok user : String) (pr : Int) {x : Char} {xs : List Char}
    (htok : tok.data = x :: xs) (hall : (x :: xs).all isTargetChar = true) :
    ParseCommand ("/plan " ++ tok) user pr =
      .ok { type := "plan", service := tok, user := user, prNumber := pr } := by
  have htrim : trimGo ("/plan " ++ tok) = "/plan " ++ tok :=
    trim_keyword_token _ tok '/' _ rfl (by decide) htok hall
  have hmk : (⟨x :: xs⟩ : String) = tok := by rw [← htok]
  simp only [ParseCommand]
  rw [htrim, String.data_append, htok]
  rw [matchKw_append_ne "/help" ("/plan ".data) (x :: xs) 2 (by decide) (by decide)
        (by decide),
      matchKw_append_ne "/status" ("/plan ".data) (x :: xs) 2 (by decide) (by decide)
        (by decide)]
  rw [show ("/plan ".data ++ (x :: xs) : List Char) = "/plan".data ++ (' ' :: x :: xs)
        from rfl,
      matchKwTarget_self, matchOptTarget_space_token hall]
  simp [mkCommand, hmk]

lemma parse_help_token (tok user : String) (pr : Int) {x : Char} {xs : List Char}
    (htok : tok.data = x :: xs) (hall : (x :: xs).all isTargetChar = true) :
    ParseCommand ("/help " ++ tok) user pr =
      .error ("unknown command: " ++ ("/help " ++ tok)) := by
  have hx : isTargetChar x = true := by
    simp only [List.all_cons, Bool.and_eq_true] at hall
    exact hall.1
  have htrim : trimGo ("/help " ++ tok) = "/help " ++ tok :=
    trim_keyword_token _ tok '/' _ rfl (by decide) htok hall
  simp only [ParseCommand]
  rw [htrim, String.data_append, htok]
  rw [show ("/help ".data ++ (x :: xs) : List Char) = "/help".data ++ (' ' :: x :: xs)
        from rfl,
      matchKw_space_token "/help" hx]
  rw [show ("/help".data ++ (' ' :: x :: xs) : List Char) = "/help ".data ++ (x :: xs)
        from rfl]
  rw [matchKw_append_ne "/status" ("/help ".data) (x :: xs) 2 (by decide) (by decide)
        (by decide),
      matchKwTarget_append_ne "/plan" ("/help ".data) (x :: xs) 2 (by decide) (by decide)
        (by decide),
      matchKwTarget_append_ne "/preview" ("/help ".data) (x :: xs) 2 (by decide) (by decide)
        (by decide),
      matchKw_append_ne "/cleanup" ("/help ".data) (x :: xs) 2 (by decide) (by decide)
        (by decide)]
  simp

lemma parse_status_token (tok user : String) (pr : Int) {x : Char} {xs : List Char}
    (htok : tok.data = x :: xs) (hall : (x :: xs).all isTargetChar = true) :
    ParseCommand ("/status " ++ tok) user pr =
      .error ("unknown command: " ++ ("/status " ++ tok)) := by
  have hx : isTargetChar x = true := by
    simp only [List.all_cons, Bool.and_eq_true] at hall
    exact hall.1
  have htrim : trimGo ("/status " ++ tok) = "/status " ++ tok :=
    trim_keyword_token _ tok '/' _ rfl (by decide) htok hall
  simp only [ParseCommand]
  rw [htrim, String.data_append, htok]
  rw [matchKw_append_ne "/help" ("/status ".data) (x :: xs) 2 (by decide) (by decide)
        (by decide)]
  rw [show ("/status ".data ++ (x :: xs) : List Char) = "/status".data ++ (' ' :: x :: xs)
        from rfl,
      matchKw_space_token "/status" hx]
  rw [show ("/status".data ++ (' ' :: x :: xs) : List Char) = "/status ".data ++ (x :: xs)
        from rfl]
  rw [matchKwTarget_append_ne "/plan" ("/status ".data) (x :: xs) 2 (by decide) (by decide)
        (by decide),
      matchKwTarget_append_ne "/preview" ("/status ".data) (x :: xs) 3 (by decide)
        (by decide) (by decide),
      matchKw_append_ne "/cleanup" ("/status ".data) (x :: xs) 2 (by decide) (by decide)
        (by decide)]
  simp

lemma parse_cleanup_token (tok user : String) (pr : Int) {x : Char} {xs : List Char}
    (htok : tok.data = x :: xs) (hall : (x :: xs).all isTargetChar = true) :
    ParseCommand ("/cleanup " ++ tok) user pr =
      .error ("unknown command: " ++ ("/cleanup " ++ tok)) := by
  have hx : isTargetChar x = true := by
    simp only [List.all_cons, Bool.and_eq_true] at hall
    exact hall.1
  have htrim : trimGo ("/cleanup " ++ tok) = "/cleanup " ++ tok :=
    trim_keyword_token _ tok '/' _ rfl (by decide) htok hall
  simp only [ParseCommand]
  rw [htrim, String.data_append, htok]
  rw [matchKw_append_ne "/help" ("/cleanup ".data) (x :: xs) 2 (by decide) (by decide)
        (by decide),
      matchKw_append_ne "/status" ("/cleanup ".data) (x :: xs) 2 (by decide) (by decide)
        (by decide),
      matchKwTarget_append_ne "/plan" ("/cleanup ".data) (x :: xs) 2 (by decide)
        (by decide) (by decide),
      matchKwTarget_append_ne "/preview" ("/cleanup ".data) (x :: xs) 2 (by decide)
        (by decide) (by decide)]
  rw [show ("/cleanup ".data ++ (x :: xs) : List Char) = "/cleanup".data ++ (' ' :: x :: xs)
        from rfl,
      matchKw_space_token "/cleanup" hx]
  simp

lemma parse_ok_types (body user : String) (pr : Int) (cmd : Command)
    (h : ParseCommand body user pr = .ok cmd) :
    cmd.type = "help" ∨ cmd.type = "status" ∨ cmd.type = "plan" ∨
      cmd.type = "preview" ∨ cmd.type = "cleanup" := by
  simp only [ParseCommand] at h
  split at h
  · obtain rfl := Except.ok.inj h
    left; rfl
  · split at h
    · obtain rfl := Except.ok.inj h
      right; left; rfl
    · split at h
      · obtain rfl := Except.ok.inj h
        right; right; left; rfl
      · split at h
        · obtain rfl := Except.ok.inj h
          right; right; right; left; rfl
        · split at h
          · obtain rfl := Except.ok.inj h
            right; right; right; right; rfl
          · exact absurd h (by simp)

/-! ## Support lemmas: manifest-ingestion counting -/

lemma totalCount_parseStep (o : YamlOracle) (p : ParsedManifest) (docRaw : String) :
    totalCount (parseStep o p docRaw) =
      totalCount p + (if goodRaw o docRaw then 1 else 0) := by
  unfold parseStep goodRaw
  by_cases h : trimGo docRaw = ""
  · simp [h]
  · simp only [h, if_false, ite_false]
    unfold parseDocument goodDoc
    rcases hg : o.generic (trimGo docRaw) with _ | ko
    · simp [h]
    · rcases ko with _ | k
      · simp [h]
      · by_cases hd : k = "Deployment"
        · subst hd
          rcases hdd : o.decodeDeployment (trimGo docRaw) with _ | dep <;>
            simp [h, hdd, totalCount] <;> omega
        · by_cases hs : k = "Service"
          · subst hs
            rcases hds : o.decodeService (trimGo docRaw) with _ | sv <;>
              simp [h, hd, hds, totalCount] <;> omega
          · by_cases hc : k = "ConfigMap"
            · subst hc
              rcases hdc : o.decodeConfigMap (trimGo docRaw) with _ | cm <;>
                simp [h, hd, hs, hdc, totalCount] <;> omega
            · simp [h, hd, hs, hc]

lemma totalCount_foldl (o : YamlOracle) (l : List String) (p : ParsedManifest) :
    totalCount (l.foldl (parseStep o) p) = totalCount p + l.countP (goodRaw o) := by
  induction l generalizing p with
  | nil => simp
  | cons d t ih =>
    simp only [List.foldl_cons, ih, List.countP_cons, totalCount_parseStep]
    by_cases hg : goodRaw o d <;> simp [hg] <;> omega

lemma goodDoc_eq_not_badKind (o : YamlOracle) (d : String)
    (h1 : (o.generic d).isSome = true) (h2 : decodeOk o d = true) :
    goodDoc o d = !badKind o d := by
  unfold goodDoc badKind decodeOk at *
  rcases hg : o.generic d with _ | ko
  · rw [hg] at h1; simp at h1
  · rcases ko with _ | k
    · simp
    · rw [hg] at h2
      by_cases hd : k = "Deployment"
      · subst hd; simpa using h2
      · by_cases hs : k = "Service"
        · subst hs; simpa [hd] using h2
        · by_cases hc : k = "ConfigMap"
          · subst hc; simpa [hd, hs] using h2
          · simp [hd, hs, hc]

lemma countP_goodRaw_eq (o : YamlOracle) (content : String) :
    (splitOnDashes content).countP (goodRaw o) =
      (docsOf content).countP (goodDoc o) := by
  unfold docsOf
  rw [List.countP_filter, List.countP_map]
  apply List.countP_congr
  intro d _
  simp only [Function.comp, goodRaw]
  by_cases h : trimGo d = "" <;> simp [h]

lemma countP_not_eq {α : Type} (q : α → Bool) (l : List α) :
    l.countP (fun a => !q a) = l.length - l.countP q := by
  induction l with
  | nil => simp
  | cons a t ih =>
    have hle : t.countP q ≤ t.length := List.countP_le_length q
    by_cases h : q a <;> simp [List.countP_cons, h, ih] <;> omega

lemma foldl_parseStep (o : YamlOracle) (l : List String) (p : ParsedManifest) :
    l.foldl (parseStep o) p =
      ((l.map trimGo).filter (fun d => d ≠ "")).foldl (parseDocStep o) p := by
  induction l generalizing p with
  | nil => rfl
  | cons d t ih =>
    by_cases h : trimGo d = "" <;> simp [parseStep, parseDocStep, h, ih]

lemma parseDocStep_deployments (o : YamlOracle) (p : ParsedManifest) (d : String) :
    (parseDocStep o p d).deployments = p.deployments ++ (depOf o d).toList := by
  unfold parseDocStep parseDocument depOf
  rcases hg : o.generic d with _ | ko
  · simp
  · rcases ko with _ | k
    · simp
    · by_cases hd : k = "Deployment"
      · subst hd
        rcases hdd : o.decodeDeployment d with _ | dep <;> simp [hdd]
      · by_cases hs : k = "Service"
        · subst hs
          rcases o.decodeService d with _ | sv <;> simp [hd]
        · by_cases hc : k = "ConfigMap"
          · subst hc
            rcases o.decodeConfigMap d with _ | cm <;> simp [hd, hs]
          · simp [hd, hs, hc]

lemma parseDocStep_services (o : YamlOracle) (p : ParsedManifest) (d : String) :
    (parseDocStep o p d).services = p.services ++ (svcOf o d).toList := by
  unfold parseDocStep parseDocument svcOf
  rcases hg : o.generic d with _ | ko
  · simp
  · rcases ko with _ | k
    · simp
    · by_cases hd : k = "Deployment"
      · subst hd
        rcases o.decodeDeployment d with _ | dep <;> simp
      · by_cases hs : k = "Service"
        · subst hs
          rcases hds : o.decodeService d with _ | sv <;> simp [hd, hds]
        · by_cases hc : k = "ConfigMap"
          · subst hc
            rcases o.decodeConfigMap d with _ | cm <;> simp [hd, hs]
          · simp [hd, hs, hc]

lemma parseDocStep_configMaps (o : YamlOracle) (p : ParsedManifest) (d : String) :
    (parseDocStep o p d).configMaps = p.configMaps ++ (cmOf o d).toList := by
  unfold parseDocStep parseDocument cmOf
  rcases hg : o.generic d with _ | ko
  · simp
  · rcases ko with _ | k
    · simp
    · by_cases hd : k = "Deployment"
      · subst hd
        rcases o.decodeDeployment d with _ | dep <;> simp
      · by_cases hs : k = "Service"
        · subst hs
          rcases o.decodeService d with _ | sv <;> simp [hd]
        · by_cases hc : k = "ConfigMap"
          · subst hc
            rcases hdc : o.decodeConfigMap d with _ | cm <;> simp [hd, hs, hdc]
          · simp [hd, hs, hc]

lemma foldl_docStep_deployments (o : YamlOracle) (l : List String) (p : ParsedManifest) :
    (l.foldl (parseDocStep o) p).deployments =
      p.deployments ++ l.filterMap (depOf o) := by
  induction l generalizing p with
  | nil => simp
  | cons d t ih =>
    rcases h : depOf o d with _ | dep <;>
      simp [ih, parseDocStep_deployments, h, List.filterMap_cons]

lemma foldl_docStep_services (o : YamlOracle) (l : List String) (p : ParsedManifest) :
    (l.foldl (parseDocStep o) p).services = p.services ++ l.filterMap (svcOf o) := by
  induction l generalizing p with
  | nil => simp
  | cons d t ih =>
    rcases h : svcOf o d with _ | sv <;>
      simp [ih, parseDocStep_services, h, List.filterMap_cons]

lemma foldl_docStep_configMaps (o : YamlOracle) (l : List String) (p : ParsedManifest) :
    (l.foldl (parseDocStep o) p).configMaps =
      p.configMaps ++ l.filterMap (cmOf o) := by
  induction l generalizing p with
  | nil => simp
  | cons d t ih =>
    rcases h : cmOf o d with _ | cm <;>
      simp [ih, parseDocStep_configMaps, h, List.filterMap_cons]

lemma parseDocs_deployments (o : YamlOracle) (content : String) :
    (parseDocs o content).deployments = (docsOf content).filterMap (depOf o) := by
  unfold parseDocs
  rw [foldl_parseStep,
    show ((splitOnDashes content).map trimGo).filter (fun d => d ≠ "") = docsOf content
      from rfl,
    foldl_docStep_deployments]
  simp [emptyParsed]

lemma parseDocs_services (o : YamlOracle) (content : String) :
    (parseDocs o content).services = (docsOf content).filterMap (svcOf o) := by
  unfold parseDocs
  rw [foldl_parseStep,
    show ((splitOnDashes content).map trimGo).filter (fun d => d ≠ "") = docsOf content
      from rfl,
    foldl_docStep_services]
  simp [emptyParsed]

lemma parseDocs_configMaps (o : YamlOracle) (content : String) :
    (parseDocs o content).configMaps = (docsOf content).filterMap (cmOf o) := by
  unfold parseDocs
  rw [foldl_parseStep,
    show ((splitOnDashes content).map trimGo).filter (fun d => d ≠ "") = docsOf content
      from rfl,
    foldl_docStep_configMaps]
  simp [emptyParsed]

/-! ## The claims -/

/-- C1: the static allow-list contains exactly the identity `abdullahainun`,
and every `preview` or `cleanup` command from an actor outside it is
answered by the webhook dispatch with `success = false` and the
access-denied message, with zero cluster-gateway calls made. -/
theorem claim_C1 :
    (∀ u, hasDeploymentPermission u = true ↔ u = "abdullahainun") ∧
    (∀ (g : K8sGateway) (cmd : Command),
      (cmd.type = "preview" ∨ cmd.type = "cleanup") →
      hasDeploymentPermission cmd.user = false →
      ((processWebhookCommand g cmd).1.success = false ∧
       (processWebhookCommand g cmd).1.message = "Access denied" ∧
       (processWebhookCommand g cmd).2 = [])) := by
  constructor
  · intro u
    simp [hasDeploymentPermission, coreTeam]
  · rintro g cmd (h | h) hperm
    · simp [processWebhookCommand, h, hperm]
    · simp [processWebhookCommand, h, hperm]

/-- C2: a preview whose target is explicitly named, is not the default
`nginx`, and has no manifest at any conventional path returns
`success = false` with the `Service not found` result listing the currently
known manifest-backed service names, and makes zero cluster calls. -/
theorem claim_C2 (g : K8sGateway) (fs : RepoFS) (o : YamlOracle) (cmd : Command)
    (repoPath : String)
    (h1 : cmd.service ≠ "") (h2 : cmd.service ≠ "nginx")
    (h3 : isManifestBasedService fs cmd.service repoPath = false) :
    HandlePreviewK8sEnhanced g fs o cmd repoPath =
      ({ success := false, message := "Service not found",
         content := serviceNotFoundContent cmd.service
           (GetAvailableServicesWithManifest fs repoPath),
         data := [] },
       []) := by
  simp [HandlePreviewK8sEnhanced, h1, h2, h3]

/-- C2 witness: `/preview ghost` on an empty repository, evaluated. -/
theorem claim_C2_witness :
    HandlePreviewK8sEnhanced gNoPreviews fsNone oNone
        { type := "preview", service := "ghost", user := "abdullahainun", prNumber := 123 }
        "." =
      ({ success := false, message := "Service not found",
         content := serviceNotFoundContent "ghost"
           (GetAvailableServicesWithManifest fsNone "."),
         data := [] },
       []) :=
  claim_C2 gNoPreviews fsNone oNone _ "." (by decide) (by decide) (by decide)

/-- C3: the provisioning workflow runs namespace creation, then workload
deployment, then service creation, in that order; each step's failure
yields a `success = false` result with its own distinct message, and no
later step's cluster call is made after a failure. -/
theorem claim_C3 (g : K8sGateway) (cmd : Command) :
    let serviceName := if cmd.service = "" then "nginx-test" else cmd.service
    let cleanName := cleanServiceName serviceName
    let nsn := previewNamespaceName cmd.prNumber cleanName
    (∀ e, g.createNamespace nsn cmd.prNumber serviceName = .error e →
      (HandlePreviewK8s g cmd).1.success = false ∧
      (HandlePreviewK8s g cmd).1.message = "Preview deployment failed" ∧
      (HandlePreviewK8s g cmd).2 = [.createNamespace nsn cmd.prNumber serviceName]) ∧
    (∀ e, g.createNamespace nsn cmd.prNumber serviceName = .ok () →
      g.deployTestPod nsn cleanName = .error e →
      (HandlePreviewK8s g cmd).1.success = false ∧
      (HandlePreviewK8s g cmd).1.message = "Pod deployment failed" ∧
      (HandlePreviewK8s g cmd).2 =
        [.createNamespace nsn cmd.prNumber serviceName, .deployTestPod nsn cleanName]) ∧
    (∀ e, g.createNamespace nsn cmd.prNumber serviceName = .ok () →
      g.deployTestPod nsn cleanName = .ok () →
      g.createService nsn cleanName = .error e →
      (HandlePreviewK8s g cmd).1.success = false ∧
      (HandlePreviewK8s g cmd).1.message = "Service creation failed" ∧
      (HandlePreviewK8s g cmd).2 =
        [.createNamespace nsn cmd.prNumber serviceName, .deployTestPod nsn cleanName,
         .createService nsn cleanName]) ∧
    (g.createNamespace nsn cmd.prNumber serviceName = .ok () →
      g.deployTestPod nsn cleanName = .ok () →
      g.createService nsn cleanName = .ok () →
      (HandlePreviewK8s g cmd).1.success = true ∧
      (HandlePreviewK8s g cmd).2 =
        [.createNamespace nsn cmd.prNumber serviceName, .deployTestPod nsn cleanName,
         .createService nsn cleanName]) ∧
    (("Preview deployment failed" : String) ≠ "Pod deployment failed" ∧
     ("Preview deployment failed" : String) ≠ "Service creation failed" ∧
     ("Pod deployment failed" : String) ≠ "Service creation failed") := by
  refine ⟨?_, ?_, ?_, ?_, by decide⟩
  · intro e h
    simp [HandlePreviewK8s, h]
  · intro e h1 h2
    simp [HandlePreviewK8s, h1, h2]
  · intro e h1 h2 h3
    simp [HandlePreviewK8s, h1, h2, h3]
  · intro h1 h2 h3
    simp [HandlePreviewK8s, h1, h2, h3]

/-- C3 witness: a namespace-create rejection on `/preview web`, PR 7,
evaluated: the workflow stops after the first call with the
namespace-failure message. -/
theorem claim_C3_witness :
    (HandlePreviewK8s gFailNs cmdPreviewWeb).1.success = false ∧
    (HandlePreviewK8s gFailNs cmdPreviewWeb).1.message = "Preview deployment failed" ∧
    (HandlePreviewK8s gFailNs cmdPreviewWeb).2 =
      [ClusterCall.createNamespace "preview-pr-7-web" 7 "web"] :=
  (claim_C3 gFailNs cmdPreviewWeb).1 "namespaces is forbidden" rfl

/-- C4: for a readable manifest file whose non-empty documents all survive
the generic decode, with M of N having a missing or unrecognized kind and
all remaining documents decoding successfully, ingestion returns without
error a set whose total entry count is N minus M. -/
theorem claim_C4 (o : YamlOracle) (readF : String → Except String String)
    (path content : String)
    (hread : readF path = .ok content)
    (hok : ∀ d ∈ docsOf content, (o.generic d).isSome = true ∧ decodeOk o d = true) :
    ParseManifestFile readF o path = .ok (parseDocs o content) ∧
    totalCount (parseDocs o content) =
      (docsOf content).length - (docsOf content).countP (badKind o) := by
  constructor
  · simp [ParseManifestFile, hread]
  · unfold parseDocs
    rw [totalCount_foldl, countP_goodRaw_eq]
    have hcongr : (docsOf content).countP (goodDoc o) =
        (docsOf content).countP (fun d => !badKind o d) := by
      apply List.countP_congr
      intro d hd
      simp [goodDoc_eq_not_badKind o d (hok d hd).1 (hok d hd).2]
    rw [hcongr, countP_not_eq]
    simp [totalCount, emptyParsed]

/-- C4 witness: a four-document file (Deployment, unrecognized CronJob,
kind-less document, Service) parses without error to 4 minus 2 entries. -/
theorem claim_C4_witness :
    ParseManifestFile readDocs oDocs "k8s/backend.yaml" =
      .ok (parseDocs oDocs "docDep---docCron---docNoKind---docSvc") ∧
    totalCount (parseDocs oDocs "docDep---docCron---docNoKind---docSvc") =
      (docsOf "docDep---docCron---docNoKind---docSvc").length -
        (docsOf "docDep---docCron---docNoKind---docSvc").countP (badKind oDocs) :=
  claim_C4 oDocs readDocs "k8s/backend.yaml" _ rfl (by decide)

example : totalCount (parseDocs oDocs "docDep---docCron---docNoKind---docSvc") = 2 := rfl

example : (docsOf "docDep---docCron---docNoKind---docSvc").length = 4 := rfl

example : (docsOf "docDep---docCron---docNoKind---docSvc").countP (badKind oDocs) = 2 := rfl

/-- C5: a status query over zero preview namespaces is `success = true`
with an empty preview list and total zero; over a non-empty namespace list
it stays `success = true`, reports every namespace, and a failed workload
read leaves that namespace's entry without a `deployment_status` key
instead of failing the call. -/
theorem claim_C5 (g : K8sGateway) (cmd : Command) :
    (g.getPreviewNamespacesByPR cmd.prNumber = .ok [] →
      (HandleStatusK8s g cmd).1.success = true ∧
      List.lookup "active_previews" (HandleStatusK8s g cmd).1.data =
        some (GoValue.list []) ∧
      List.lookup "total_previews" (HandleStatusK8s g cmd).1.data =
        some (GoValue.int 0)) ∧
    (∀ l, g.getPreviewNamespacesByPR cmd.prNumber = .ok l → l ≠ [] →
      (HandleStatusK8s g cmd).1.success = true ∧
      List.lookup "total_previews" (HandleStatusK8s g cmd).1.data =
        some (GoValue.int l.length) ∧
      List.lookup "active_previews" (HandleStatusK8s g cmd).1.data =
        some (GoValue.list (l.map (enrichEntry g))) ∧
      (∀ ns ∈ l,
        List.lookup "name" (nsDict ns) = some (GoValue.str ns.name) ∧
        (∀ e, g.getDeploymentStatus ns.name ns.service = .error e →
          enrichEntry g ns = .dict (nsDict ns) ∧
          List.lookup "deployment_status" (nsDict ns) = none))) := by
  constructor
  · intro h
    simp [HandleStatusK8s, h, List.lookup, nsDict]
  · intro l h hne
    have hlen : ¬ l.length = 0 := by simpa [List.length_eq_zero] using hne
    refine ⟨?_, ?_, ?_, ?_⟩
    · simp [HandleStatusK8s, h, hlen]
    · simp [HandleStatusK8s, h, hlen, List.lookup]
    · simp [HandleStatusK8s, h, hlen, List.lookup]
    · intro ns _
      refine ⟨by simp [nsDict, List.lookup], ?_⟩
      intro e he
      exact ⟨by simp [enrichEntry, he], by simp [nsDict, List.lookup]⟩

/-- C5 witness: a status query for PR 123 on a cluster with no preview
namespaces, evaluated. -/
theorem claim_C5_witness :
    (HandleStatusK8s gNoPreviews cmdStatus123).1.success = true ∧
    List.lookup "active_previews" (HandleStatusK8s gNoPreviews cmdStatus123).1.data =
      some (GoValue.list []) ∧
    List.lookup "total_previews" (HandleStatusK8s gNoPreviews cmdStatus123).1.data =
      some (GoValue.int 0) :=
  (claim_C5 gNoPreviews cmdStatus123).1 rfl

/-- C6 counterexample: with zero preview namespaces, cleanup for PR 123
returns `success = true` and the "Nothing to cleanup" summary, but its
structured data is empty — in particular it does not hold an empty
`cleaned_namespaces` list, contrary to the claim. -/
theorem claim_C6_cex :
    (HandleCleanupK8s gNoPreviews cmdCleanup123).1.success = true ∧
    (HandleCleanupK8s gNoPreviews cmdCleanup123).1.message = "Nothing to cleanup" ∧
    (HandleCleanupK8s gNoPreviews cmdCleanup123).1.data = [] ∧
    List.lookup "cleaned_namespaces" (HandleCleanupK8s gNoPreviews cmdCleanup123).1.data
      ≠ some (GoValue.list []) := by
  refine ⟨rfl, rfl, rfl, ?_⟩
  intro h
  simp [HandleCleanupK8s, gNoPreviews, List.lookup] at h

/-- C6 as amended: cleanup with zero preview namespaces returns
`success = true` with the nothing-to-clean-up summary; the response carries
no structured data at all (the cleaned-namespaces key is absent rather than
an empty list), and no deletion call is made. -/
theorem claim_C6_amended (g : K8sGateway) (cmd : Command)
    (h : g.getPreviewNamespacesByPR cmd.prNumber = .ok []) :
    (HandleCleanupK8s g cmd).1.success = true ∧
    (HandleCleanupK8s g cmd).1.message = "Nothing to cleanup" ∧
    (HandleCleanupK8s g cmd).1.data = [] ∧
    (HandleCleanupK8s g cmd).2 = [ClusterCall.listByPR cmd.prNumber] := by
  simp [HandleCleanupK8s, h]

/-- C6 witness: the amended statement evaluated at PR 123 on a cluster with
no preview namespaces. -/
theorem claim_C6_witness :
    (HandleCleanupK8s gNoPreviews cmdCleanup123).1.success = true ∧
    (HandleCleanupK8s gNoPreviews cmdCleanup123).1.message = "Nothing to cleanup" ∧
    (HandleCleanupK8s gNoPreviews cmdCleanup123).1.data = [] ∧
    (HandleCleanupK8s gNoPreviews cmdCleanup123).2 = [ClusterCall.listByPR 123] :=
  claim_C6_amended gNoPreviews cmdCleanup123 rfl

/-- C7 counterexample: `/status`, `/help` and `/cleanup` do not accept a
target token — the claim's "each of the five" fails on these concrete
inputs, which parse as unknown commands. -/
theorem claim_C7_cex :
    ParseCommand "/status nginx" "alice" 7 = .error "unknown command: /status nginx" ∧
    ParseCommand "/help nginx" "alice" 7 = .error "unknown command: /help nginx" ∧
    ParseCommand "/cleanup nginx" "alice" 7 = .error "unknown command: /cleanup nginx" :=
  ⟨rfl, rfl, rfl⟩

/-- C7 as amended: the grammar recognizes exactly five command words; only
`/plan` and `/preview` optionally accept a single whitespace-delimited
target token of letters, digits, slash and dash, and the parsed target then
equals the typed token exactly (case preserved, no trimming beyond
whitespace); `/help`, `/status` and `/cleanup` reject any target. -/
theorem claim_C7_amended :
    (∀ (body user : String) (pr : Int) (cmd : Command),
      ParseCommand body user pr = .ok cmd →
      cmd.type = "help" ∨ cmd.type = "status" ∨ cmd.type = "plan" ∨
        cmd.type = "preview" ∨ cmd.type = "cleanup") ∧
    (∀ (tok user : String) (pr : Int),
      tok.data ≠ [] → (∀ c ∈ tok.data, isTargetChar c = true) →
      ParseCommand ("/preview " ++ tok) user pr =
        .ok { type := "preview", service := tok, user := user, prNumber := pr } ∧
      ParseCommand ("/plan " ++ tok) user pr =
        .ok { type := "plan", service := tok, user := user, prNumber := pr } ∧
      ParseCommand ("/help " ++ tok) user pr =
        .error ("unknown command: " ++ ("/help " ++ tok)) ∧
      ParseCommand ("/status " ++ tok) user pr =
        .error ("unknown command: " ++ ("/status " ++ tok)) ∧
      ParseCommand ("/cleanup " ++ tok) user pr =
        .error ("unknown command: " ++ ("/cleanup " ++ tok))) := by
  refine ⟨parse_ok_types, ?_⟩
  intro tok user pr hne hall
  obtain ⟨x, xs, htok⟩ : ∃ x xs, tok.data = x :: xs := by
    cases h : tok.data with
    | nil => exact absurd h hne
    | cons x xs => exact ⟨x, xs, rfl⟩
  have hall' : (x :: xs).all isTargetChar = true := by
    rw [← htok]
    exact List.all_eq_true.mpr hall
  exact ⟨parse_preview_token tok user pr htok hall',
    parse_plan_token tok user pr htok hall',
    parse_help_token tok user pr htok hall',
    parse_status_token tok user pr htok hall',
    parse_cleanup_token tok user pr htok hall'⟩

/-- C8: every parse either yields a full intent or is exactly the
unknown-command error carrying the trimmed raw input — an error is never
accompanied by a partially-populated intent. -/
theorem claim_C8 (body user : String) (pr : Int) :
    (∃ cmd, ParseCommand body user pr = .ok cmd) ∨
      ParseCommand body user pr = .error ("unknown command: " ++ trimGo body) := by
  simp only [ParseCommand]
  split
  · exact Or.inl ⟨_, rfl⟩
  · split
    · exact Or.inl ⟨_, rfl⟩
    · split
      · exact Or.inl ⟨_, rfl⟩
      · split
        · exact Or.inl ⟨_, rfl⟩
        · split
          · exact Or.inl ⟨_, rfl⟩
          · exact Or.inr rfl

/-- C9: for every manifest file containing two documents of the same
supported kind (Deployment, Service or ConfigMap) decoding to the same
resource name — with any other documents around them — both appear as
separate entries, in order, in the resulting collection for that kind:
ingestion performs no de-duplication and no last-write-wins overwrite. -/
theorem claim_C9 :
    (∀ (o : YamlOracle) (content : String) (pre mid post : List String)
       (d1 d2 : String) (dep1 dep2 : K8sDeployment),
      docsOf content = pre ++ d1 :: mid ++ d2 :: post →
      o.generic d1 = some (some "Deployment") →
      o.decodeDeployment d1 = some dep1 →
      o.generic d2 = some (some "Deployment") →
      o.decodeDeployment d2 = some dep2 →
      dep1.name = dep2.name →
      (parseDocs o content).deployments =
        pre.filterMap (depOf o) ++
          dep1 :: mid.filterMap (depOf o) ++ dep2 :: post.filterMap (depOf o)) ∧
    (∀ (o : YamlOracle) (content : String) (pre mid post : List String)
       (d1 d2 : String) (sv1 sv2 : K8sResService),
      docsOf content = pre ++ d1 :: mid ++ d2 :: post →
      o.generic d1 = some (some "Service") →
      o.decodeService d1 = some sv1 →
      o.generic d2 = some (some "Service") →
      o.decodeService d2 = some sv2 →
      sv1.name = sv2.name →
      (parseDocs o content).services =
        pre.filterMap (svcOf o) ++
          sv1 :: mid.filterMap (svcOf o) ++ sv2 :: post.filterMap (svcOf o)) ∧
    (∀ (o : YamlOracle) (content : String) (pre mid post : List String)
       (d1 d2 : String) (cm1 cm2 : K8sConfigMap),
      docsOf content = pre ++ d1 :: mid ++ d2 :: post →
      o.generic d1 = some (some "ConfigMap") →
      o.decodeConfigMap d1 = some cm1 →
      o.generic d2 = some (some "ConfigMap") →
      o.decodeConfigMap d2 = some cm2 →
      cm1.name = cm2.name →
      (parseDocs o content).configMaps =
        pre.filterMap (cmOf o) ++
          cm1 :: mid.filterMap (cmOf o) ++ cm2 :: post.filterMap (cmOf o)) := by
  refine ⟨?_, ?_, ?_⟩
  · intro o content pre mid post d1 d2 dep1 dep2 hdocs h1 hd1 h2 hd2 _
    rw [parseDocs_deployments, hdocs]
    simp [List.filterMap_append, List.filterMap_cons, depOf, h1, hd1, h2, hd2]
  · intro o content pre mid post d1 d2 sv1 sv2 hdocs h1 hd1 h2 hd2 _
    rw [parseDocs_services, hdocs]
    simp [List.filterMap_append, List.filterMap_cons, svcOf, h1, hd1, h2, hd2]
  · intro o content pre mid post d1 d2 cm1 cm2 hdocs h1 hd1 h2 hd2 _
    rw [parseDocs_configMaps, hdocs]
    simp [List.filterMap_append, List.filterMap_cons, cmOf, h1, hd1, h2, hd2]

/-- C9 witness: for each supported kind, a manifest with two documents of
that kind both decoding to the name `backend` keeps both entries. -/
theorem claim_C9_witness :
    (parseDocs oDup "dup1---dup2").deployments =
      [({ name := "backend" } : K8sDeployment), { name := "backend" }] ∧
    (parseDocs oDup "svc1---svc2").services =
      [({ name := "backend" } : K8sResService), { name := "backend" }] ∧
    (parseDocs oDup "cm1---cm2").configMaps =
      [({ name := "backend" } : K8sConfigMap), { name := "backend" }] :=
  ⟨claim_C9.1 oDup "dup1---dup2" [] [] [] "dup1" "dup2" ⟨"backend"⟩ ⟨"backend"⟩
     rfl rfl rfl rfl rfl rfl,
   claim_C9.2.1 oDup "svc1---svc2" [] [] [] "svc1" "svc2" ⟨"backend"⟩ ⟨"backend"⟩
     rfl rfl rfl rfl rfl rfl,
   claim_C9.2.2 oDup "cm1---cm2" [] [] [] "cm1" "cm2" ⟨"backend"⟩ ⟨"backend"⟩
     rfl rfl rfl rfl rfl rfl⟩

/-- C10: target sanitization is exactly the character map replacing slash
by dash; the namespace name is `preview-pr-` then the PR then the sanitized
target; hence the targets `a/b` and `a-b` collide on the same namespace
name for one PR, and against a conflict-detecting cluster the second
preview fails with the namespace-create failure after exactly one call,
rather than creating a second environment. -/
theorem claim_C10 :
    (∀ s : String, (cleanServiceName s).data =
      s.data.map (fun c => if c = '/' then '-' else c)) ∧
    (∀ pr : Int,
      previewNamespaceName pr (cleanServiceName "a/b") =
      previewNamespaceName pr (cleanServiceName "a-b")) ∧
    (∀ (pr : Int) (u u' : String),
      (HandlePreviewK8s (conflictGateway [])
        { type := "preview", service := "a/b", user := u, prNumber := pr }).1.success = true ∧
      ((HandlePreviewK8s
          (conflictGateway [previewNamespaceName pr (cleanServiceName "a/b")])
          { type := "preview", service := "a-b", user := u', prNumber := pr }).1.success = false ∧
       (HandlePreviewK8s
          (conflictGateway [previewNamespaceName pr (cleanServiceName "a/b")])
          { type := "preview", service := "a-b", user := u', prNumber := pr }).1.message =
         "Preview deployment failed" ∧
       (HandlePreviewK8s
          (conflictGateway [previewNamespaceName pr (cleanServiceName "a/b")])
          { type := "preview", service := "a-b", user := u', prNumber := pr }).2 =
         [ClusterCall.createNamespace
            (previewNamespaceName pr (cleanServiceName "a/b")) pr "a-b"])) := by
  refine ⟨fun s => rfl, fun pr => rfl, ?_⟩
  intro pr u u'
  have hc1 : cleanServiceName "a/b" = "a-b" := rfl
  have hc2 : cleanServiceName "a-b" = "a-b" := rfl
  constructor
  · simp [HandlePreviewK8s, conflictGateway, gNoPreviews]
  · refine ⟨?_, ?_, ?_⟩ <;>
      simp [HandlePreviewK8s, conflictGateway, gNoPreviews, hc1, hc2, previewNamespaceName]
